import Mathlib

/-!
Verification of the visia-flask-backend camera-control and recording
orchestration code.  Each definition is a shallow embedding of one
function of the repository:

* `check_for_new_files`, `get_newest_file_in_folder`,
  `get_older_file_in_folder` embed `src/api/utils/files.py`;
* `Camera.is_running`, `Camera.open_program`, `Camera.is_camera`,
  `Camera.config_camera` and the remote-command parsing embed
  `src/api/hardware/cam.py` and `src/camera/cam.py`;
* `digicam_start_video` and `save_new_file` embed the route handlers of
  `src/api/blueprints/bp_video/routes.py`;
* `ObjectEncryptor` embeds `src/security/basic_encription.py`.

Effects of the Python code (filesystem listings, subprocess output,
raised exceptions, the persistence collaborator) are passed in
explicitly: a directory is a list of entries, a poll loop reads a stream
of listings indexed by poll number, a fallible call is an
`Except String` value whose `error` case stands for a raised exception
carrying `str(e)`.
-/

namespace Visia

/-- Model of `BasicResponse` from `src/api/responses/basic_responses.py`:
`{ success: bool, status_code: int, message: str }`. -/
structure BasicResponse where
  success : Bool
  status_code : Nat
  message : String
deriving DecidableEq, Repr

/-- Test that `sub` starts the character list `l`. -/
def listStartsWith : List Char → List Char → Bool
  | [], _ => true
  | _ :: _, [] => false
  | a :: as, b :: bs => a = b && listStartsWith as bs

/-- Test that `sub` occurs contiguously inside the character list `l`. -/
def listHasInfix (sub : List Char) : List Char → Bool
  | [] => sub.isEmpty
  | c :: cs => listStartsWith sub (c :: cs) || listHasInfix sub cs

/-- Substring test: `sub in s` of Python, on the character lists of the
two strings. -/
def hasSubstr (s sub : String) : Bool :=
  listHasInfix sub.toList s.toList

/-! ## File Arrival Watcher — `src/api/utils/files.py` -/

/-- The body of the poll test of `check_for_new_files` (files.py lines
32-36): `set(current_files) - set(previous_files)` is non-empty. -/
def hasNewFiles (current previous : List String) : Bool :=
  current.any (fun f => !previous.contains f)

/-- Number of iterations the `while time.time() - start_time <
timer_seconds` loop performs when every listing and comparison is
instantaneous and each iteration ends in `time.sleep(10)` (files.py
lines 30-50): iteration `k` starts at elapsed time `10*k`, so the loop
body runs for every `k` with `10*k < timer_seconds`. -/
def numPolls (timer_seconds : Nat) : Nat :=
  (timer_seconds + 9) / 10

/-- The poll loop of `check_for_new_files`: `n` iterations remain and
`k` is the index of the current poll; `listings k` is the directory
listing `os.listdir` returns at poll `k`. -/
def checkLoop (listings : Nat → List String) (previous : List String) :
    Nat → Nat → Bool
  | 0, _ => false
  | n + 1, k =>
    if hasNewFiles (listings k) previous then true
    else checkLoop listings previous n (k + 1)

/-- Embedding of `check_for_new_files(path_folder, previous_files,
timer_seconds)` (files.py lines 11-52).  `validDir` is the value of
`path_folder and os.path.exists(path_folder) and
os.path.isdir(path_folder)`; a falsy path, a missing path or a
non-directory path gives `validDir = false` and the function returns
`false` after only logging a warning.  `previous_files = none` embeds
the omitted (`None`) argument, replaced by `[]` at lines 22-23. -/
def check_for_new_files (validDir : Bool) (listings : Nat → List String)
    (previous_files : Option (List String)) (timer_seconds : Nat) : Bool :=
  let previous := previous_files.getD []
  if !validDir then false
  else checkLoop listings previous (numPolls timer_seconds) 0

/-- Embedding of `BasicFileConfig.check_for_new_files(waiting_time)`
(files.py lines 203-213): it calls the module-level function with only
`self.uploads_path` and `timer_seconds=waiting_time`, never passing its
stored `upload_files` snapshot, so `previous_files` is `None`.  The
class body creates the uploads directory, so the path is a valid
directory. -/
def BasicFileConfig.check_for_new_files (listings : Nat → List String)
    (waiting_time : Nat) : Bool :=
  Visia.check_for_new_files true listings none waiting_time

theorem checkLoop_true_iff (listings : Nat → List String)
    (previous : List String) :
    ∀ n k, checkLoop listings previous n k = true ↔
      ∃ j, j < n ∧ hasNewFiles (listings (k + j)) previous = true := by
  intro n
  induction n with
  | zero =>
    intro k
    simp [checkLoop]
  | succ m ih =>
    intro k
    rw [checkLoop]
    by_cases h : hasNewFiles (listings k) previous = true
    · simp only [h, if_true, true_iff]
      exact ⟨0, Nat.succ_pos m, by simpa using h⟩
    · simp only [h, if_false, Bool.false_eq_true, ih (k + 1)]
      constructor
      · rintro ⟨j, hj, hnew⟩
        exact ⟨j + 1, by omega, by simpa [Nat.add_assoc, Nat.add_comm 1 j] using hnew⟩
      · rintro ⟨j, hj, hnew⟩
        match j, hnew with
        | 0, hnew => simp only [Nat.add_zero] at hnew; exact absurd hnew h
        | j + 1, hnew =>
          exact ⟨j, by omega, by simpa [Nat.add_assoc, Nat.add_comm 1 j] using hnew⟩

theorem hasNewFiles_of_ne_nil (current : List String)
    (h : current ≠ []) : hasNewFiles current [] = true := by
  match current, h with
  | c :: cs, _ => simp [hasNewFiles]

/-- Claim C1: `check_for_new_files` returns false for an invalid path as
a normal outcome; over a valid directory it returns true exactly when
some poll inside the timeout window lists a file absent from the
snapshot (so a new file is detected at the poll cycle on which it
appears, and an unchanged directory gives false once every poll of the
window is exhausted); the window covers the timeout and overshoots it by
less than one 10-second poll interval. -/
theorem check_for_new_files_spec (validDir : Bool)
    (listings : Nat → List String) (previous_files : Option (List String))
    (timer_seconds : Nat) :
    (validDir = false →
      check_for_new_files validDir listings previous_files timer_seconds = false)
    ∧ (validDir = true →
        (check_for_new_files validDir listings previous_files timer_seconds = true ↔
          ∃ k, k < numPolls timer_seconds ∧
            hasNewFiles (listings k) (previous_files.getD []) = true))
    ∧ timer_seconds ≤ 10 * numPolls timer_seconds
    ∧ 10 * numPolls timer_seconds < timer_seconds + 10 := by
  refine ⟨fun hv => ?_, fun hv => ?_, ?_, ?_⟩
  · simp [check_for_new_files, hv]
  · rw [check_for_new_files]
    simp only [hv, Bool.not_true, Bool.false_eq_true, if_false]
    simpa using checkLoop_true_iff listings (previous_files.getD [])
      (numPolls timer_seconds) 0
  · rw [numPolls]; omega
  · rw [numPolls]; omega

/-- Claim C9: with `previous_files` omitted the snapshot is the empty
set, so any valid directory that already holds a file makes
`check_for_new_files` return true on the very first poll, and
`BasicFileConfig.check_for_new_files` — which never passes its stored
`upload_files` snapshot — behaves exactly that way on the uploads
directory. -/
theorem check_for_new_files_none_snapshot (listings : Nat → List String)
    (waiting_time : Nat) (htimer : 0 < waiting_time)
    (hfiles : listings 0 ≠ []) :
    check_for_new_files true listings none waiting_time = true ∧
    BasicFileConfig.check_for_new_files listings waiting_time = true := by
  have hmain : check_for_new_files true listings none waiting_time = true := by
    rw [check_for_new_files]
    simp only [Bool.not_true, Bool.false_eq_true, if_false]
    rw [checkLoop_true_iff]
    refine ⟨0, ?_, ?_⟩
    · rw [numPolls]; omega
    · simpa using hasNewFiles_of_ne_nil (listings 0) hfiles
  exact ⟨hmain, hmain⟩

/-- Witness for claim C9 at a concrete input: a constant uploads
directory holding one file and the default fifteen-minute wait. -/
theorem check_for_new_files_none_snapshot_witness :
    0 < 900 ∧ (fun _ : Nat => ["session.mp4"]) 0 ≠ ([] : List String) ∧
    (check_for_new_files true (fun _ => ["session.mp4"]) none 900 = true ∧
     BasicFileConfig.check_for_new_files (fun _ => ["session.mp4"]) 900 = true) :=
  ⟨by decide, by decide,
    check_for_new_files_none_snapshot (fun _ => ["session.mp4"]) 900
      (by decide) (by decide)⟩

/-! ## Newest and oldest file — `src/api/utils/files.py` lines 55-112 -/

/-- A directory as `files_in_folder_sorted_by_time` sees it: one
`(filename, creation time)` pair per entry, in listing order. -/
abbrev DirListing := List (String × Nat)

/-- Embedding of `files_in_folder_sorted_by_time` (files.py lines
99-112): `sorted(files_with_times, key=lambda x: x[1], reverse=True)`, a
stable sort placing greater creation times first.  The insertion order
`b.2 ≤ a.2` keeps an earlier entry before later entries with the same
creation time, as the stable Python sort does. -/
def files_in_folder_sorted_by_time (dir : DirListing) : DirListing :=
  List.insertionSort (fun a b => b.2 ≤ a.2) dir

/-- Values the two extremum lookups can produce: `sorted_files[0][0]` is
a filename (`Sum.inl`), `sorted_files[-1][-1]` is a creation timestamp
(`Sum.inr`). -/
abbrev FileLookup := Option (String ⊕ Nat)

/-- Embedding of `get_newest_file_in_folder` (files.py lines 55-74): for
an invalid path it returns `None`; otherwise it returns
`sorted_files[0][0] if sorted_files else None` — the first component
(the filename) of the head of the descending-sorted listing. -/
def get_newest_file_in_folder (validDir : Bool) (dir : DirListing) : FileLookup :=
  if !validDir then none
  else
    match files_in_folder_sorted_by_time dir with
    | [] => none
    | x :: _ => some (Sum.inl x.1)

/-- Embedding of `get_older_file_in_folder` (files.py lines 77-96): for
an invalid path it returns `None`; otherwise it returns
`sorted_files[-1][-1] if sorted_files else None` — index `[-1]` of the
last `(filename, creation_time)` tuple, which is the creation timestamp,
the second component, not the filename. -/
def get_older_file_in_folder (validDir : Bool) (dir : DirListing) : FileLookup :=
  if !validDir then none
  else
    match (files_in_folder_sorted_by_time dir).getLast? with
    | none => none
    | some p => some (Sum.inr p.2)

/-- Claim C2, evaluated at the failing input: over a directory holding
the single file `a.txt` with creation time 5, `get_newest_file_in_folder`
returns the filename but `get_older_file_in_folder` returns the creation
timestamp `5` — not the filename `a.txt` its annotation
(`Optional[str]`) and docstring promise. -/
theorem get_older_file_returns_timestamp :
    get_older_file_in_folder true [("a.txt", 5)] = some (Sum.inr 5) ∧
    get_newest_file_in_folder true [("a.txt", 5)] = some (Sum.inl "a.txt") ∧
    (some (Sum.inr 5) : FileLookup) ≠ some (Sum.inl "a.txt") := by
  refine ⟨rfl, rfl, by decide⟩

/-! ## Remote Command Client list primitive — `src/camera/cam.py`
lines 632-651 (`Camera.__list_cmd`) -/

/-- The Python slice `r[96:-6]` on the character list of the raw
controller output: characters from index 96 up to six before the end;
empty whenever the output has at most 102 characters. -/
def sliceResponse (l : List Char) : List Char :=
  let t := l.drop 96
  t.take (t.length - 6)

/-- The Python `split(",")` on a character list: `acc` holds the
characters of the current piece in reverse.  Splitting the empty list
yields one empty piece, as `"".split(",") == [""]` does. -/
def splitCommaAux (acc : List Char) : List Char → List (List Char)
  | [] => [acc.reverse]
  | c :: cs =>
    if c = ',' then acc.reverse :: splitCommaAux [] cs
    else splitCommaAux (c :: acc) cs

/-- The Python slice `e[1:-1]` used to remove the quoting around each
element: drop the first and the last character. -/
def stripQuotes (e : List Char) : List Char :=
  let t := e.drop 1
  t.take (t.length - 1)

/-- Embedding of `Camera.__list_cmd` on the decoded raw output `r` of
the spawned `CameraControlRemoteCmd.exe /c list <cmd>` process
(src/camera/cam.py lines 632-651): output containing
`Unknown parameter` yields the error code `-1`; otherwise the result is
`r[96:-6].split(",")` with `e[1:-1]` applied to every element. -/
def list_cmd (r : String) : Except Int (List String) :=
  if hasSubstr r "Unknown parameter" then .error (-1)
  else .ok ((splitCommaAux [] (sliceResponse r.toList)).map
    (fun e => String.mk (stripQuotes e)))

/-- Counterexample to claim C3: on the raw output exactly
`response:"100","200","400"` (26 characters, so the `[96:-6]` slice is
empty) `__list_cmd` returns the one-element list containing the empty
string, not `["100", "200", "400"]`. -/
theorem list_cmd_exact_output_cex :
    list_cmd "response:\"100\",\"200\",\"400\"" = .ok [""] ∧
    ([""] : List String) ≠ ["100", "200", "400"] := by
  exact ⟨rfl, by decide⟩

/-- Claim C3 as amended: `__list_cmd` first cuts the fixed 96-character
prefix and 6-character suffix off the raw output; whenever the remaining
window is exactly `"100","200","400"` (and the output carries no
`Unknown parameter` marker), it returns `["100", "200", "400"]` by
splitting on commas and stripping one character of quoting from each
end of each element. -/
theorem list_cmd_parses_window (r : String)
    (hmarker : hasSubstr r "Unknown parameter" = false)
    (hwindow : sliceResponse r.toList = "\"100\",\"200\",\"400\"".toList) :
    list_cmd r = .ok ["100", "200", "400"] := by
  rw [list_cmd, hmarker, hwindow]
  rfl

/-- Raw controller output with a 96-character preamble and a
6-character trailer around the quoted value list, the shape whose
`[96:-6]` window `__list_cmd` actually parses. -/
def listCmdRawOutput : String :=
  String.mk (List.replicate 96 'x') ++ "\"100\",\"200\",\"400\"" ++ "yyyyyy"

/-- Witness for the amended claim C3 at the concrete raw output
`listCmdRawOutput`. -/
theorem list_cmd_parses_window_witness :
    hasSubstr listCmdRawOutput "Unknown parameter" = false ∧
    sliceResponse listCmdRawOutput.toList = "\"100\",\"200\",\"400\"".toList ∧
    list_cmd listCmdRawOutput = .ok ["100", "200", "400"] :=
  ⟨by decide, by decide,
    list_cmd_parses_window listCmdRawOutput (by decide) (by decide)⟩

/-! ## Process probe and camera presence — `src/api/hardware/cam.py` -/

/-- Embedding of `Camera.open_program` (api/hardware/cam.py lines
116-135): `spawnOk` is whether `subprocess.Popen` of
`CameraControl.exe` returns without raising; success yields `(true,
200)`, a raised spawn error yields `(false, 500)`. -/
def open_program (spawnOk : Bool) : BasicResponse :=
  if spawnOk then
    ⟨true, 200, "CameraControl.exe is running"⟩
  else
    ⟨false, 500, "CameraControl.exe is not running"⟩

/-- Embedding of `Camera.is_running` (api/hardware/cam.py lines 51-74),
returning the boolean result together with whether the call spawned the
controller.  `enumOk` is whether `psutil.process_iter()` enumerates
without raising; `procRunning` is whether a process named
`CameraControl.exe` is among the enumerated processes.  When the
process is absent the method calls `open_program` — a spawn — and
returns that spawn outcome's success; an enumeration exception is
caught and returns false with no spawn. -/
def is_running_run (enumOk procRunning spawnOk : Bool) : Bool × Bool :=
  if !enumOk then (false, false)
  else if procRunning then (true, false)
  else ((open_program spawnOk).success, true)

/-- The boolean `Camera.is_running` returns. -/
def is_running (enumOk procRunning spawnOk : Bool) : Bool :=
  (is_running_run enumOk procRunning spawnOk).1

/-- Claim C10: `is_running` is not read-only.  Whenever the process
enumeration succeeds and no `CameraControl.exe` process is running, the
call spawns the controller and returns the spawn outcome's success; and
it returns false only when the enumeration itself raised or the spawn
attempt failed, never merely because the controller was absent. -/
theorem is_running_spawn_spec (enumOk procRunning spawnOk : Bool) :
    (enumOk = true → procRunning = false →
      (is_running_run enumOk procRunning spawnOk).2 = true ∧
      is_running enumOk procRunning spawnOk = (open_program spawnOk).success)
    ∧ (is_running enumOk procRunning spawnOk = false ↔
        (enumOk = false ∨ (procRunning = false ∧ spawnOk = false))) := by
  revert enumOk procRunning spawnOk
  decide

/-- Embedding of `Camera.is_camera` (api/hardware/cam.py lines
430-451) on the outcome of the spawned `list cameras` command: `error`
stands for a raised exception (a missing executable included), `ok r`
for the decoded output text.  Output carrying `no camera is connected`
or `response:null` is no camera, the storage-driver false positive
`"_??_pcistor"` is no camera, a recognized `EOS` vendor token is a
camera, and anything else is no camera. -/
def is_camera (listCamerasOutput : Except String String) : Bool :=
  match listCamerasOutput with
  | .error _ => false
  | .ok r =>
    if hasSubstr r "no camera is connected" || hasSubstr r "response:null" then
      false
    else if hasSubstr r "\"_??_pcistor\"" then false
    else if hasSubstr r "EOS" then true
    else false

/-! ## Start-video route — `src/api/blueprints/bp_video/routes.py`
lines 45-98 (`digicam_start_video`) -/

/-- Environment of one start-video request: the `list cameras` output
`is_camera` inspects, the process-probe state `is_running` reads, and
the outcome of `camera.start_recording()` (`error` for a raised
exception carrying `str(e)`). -/
structure StartVideoEnv where
  listCamerasOutput : Except String String
  enumOk : Bool
  procRunning : Bool
  spawnOk : Bool
  startResult : Except String BasicResponse
deriving Repr

/-- Which collaborators a start-video request invoked. -/
structure StartVideoTrace where
  checkedCamera : Bool
  calledIsRunning : Bool
  ranDigicam : Bool
  calledStartRecording : Bool
deriving DecidableEq, Repr

/-- Embedding of the `digicam_start_video` handler (routes.py lines
45-98) with the trace of invoked collaborators.  The handler checks
`camera.is_camera()` first and returns `(false, 400, "Camera not
connected")` without touching `is_running`, `run_digicam` or
`start_recording` when it is false; only then does it probe
`is_running` (calling `run_digicam` when that returned false) and call
`start_recording`, mapping its success to `(true, 200)`, its reported
failure to `(false, 400)` and a raised exception to `(false, 500)`. -/
def digicam_start_video (env : StartVideoEnv) :
    BasicResponse × StartVideoTrace :=
  if is_camera env.listCamerasOutput = false then
    (⟨false, 400, "Camera not connected"⟩, ⟨true, false, false, false⟩)
  else
    let running := is_running env.enumOk env.procRunning env.spawnOk
    let trace : StartVideoTrace := ⟨true, true, !running, true⟩
    match env.startResult with
    | .error e => (⟨false, 500, e⟩, trace)
    | .ok resp =>
      if resp.success then
        (⟨true, 200, "Video recording started"⟩, trace)
      else
        (⟨false, 400, "Video recording not started"⟩, trace)

/-- Concrete start-video environment of claim C4: the controller
process is not running and the `list cameras` probe answers
`response:null`, so no camera is detected. -/
def startVideoNoCameraEnv : StartVideoEnv :=
  { listCamerasOutput := .ok "response:null"
    enumOk := true
    procRunning := false
    spawnOk := true
    startResult := .ok ⟨true, 200, "Camera: Recording started"⟩ }

/-- Counterexample to claim C4: in the concrete environment with the
controller not running and no camera detected, the handler answers
`(false, 400, "Camera not connected")` but never calls `is_running` or
`run_digicam` — the controller is not launched during the request,
contrary to the claimed `ensureRunning launches the controller`. -/
theorem digicam_start_video_no_launch_cex :
    digicam_start_video startVideoNoCameraEnv =
      (⟨false, 400, "Camera not connected"⟩, ⟨true, false, false, false⟩) ∧
    (digicam_start_video startVideoNoCameraEnv).2.ranDigicam = false ∧
    (digicam_start_video startVideoNoCameraEnv).2.calledIsRunning = false ∧
    (digicam_start_video startVideoNoCameraEnv).2.calledStartRecording = false := by
  exact ⟨rfl, rfl, rfl, rfl⟩

/-- Claim C4 as amended: for every start-video request in which no
camera is physically detected (whether or not the controller process is
running), the camera-presence check runs first and fails, the handler
returns success `false` with status 400 and the message
`Camera not connected` — which contains `not connected` — and neither
`is_running`, `run_digicam` nor `start_recording` is invoked, so the
request does not launch the controller. -/
theorem digicam_start_video_no_camera (env : StartVideoEnv)
    (hcam : is_camera env.listCamerasOutput = false) :
    digicam_start_video env =
      (⟨false, 400, "Camera not connected"⟩, ⟨true, false, false, false⟩) ∧
    hasSubstr "Camera not connected" "not connected" = true := by
  refine ⟨?_, by decide⟩
  rw [digicam_start_video, hcam]
  rfl

/-- Witness for the amended claim C4 at a concrete environment in which
the controller runs but the camera probe reports no connected camera. -/
theorem digicam_start_video_no_camera_witness :
    is_camera (Except.ok "no camera is connected") = false ∧
    (digicam_start_video
        ⟨.ok "no camera is connected", true, true, true,
          .ok ⟨true, 200, "Camera: Recording started"⟩⟩ =
      (⟨false, 400, "Camera not connected"⟩, ⟨true, false, false, false⟩) ∧
     hasSubstr "Camera not connected" "not connected" = true) :=
  ⟨by decide,
    digicam_start_video_no_camera
      ⟨.ok "no camera is connected", true, true, true,
        .ok ⟨true, 200, "Camera: Recording started"⟩⟩ (by decide)⟩

/-! ## Configuration push — `src/camera/cam.py` lines 132-167
(`Camera.config_camera`) and 595-612 (`Camera.__set_cmd`) -/

/-- The result code of `Camera.__set_cmd` on the decoded output `r` of
a completed `set` command (src/camera/cam.py lines 595-612): `0` when
the output carries the `null` success marker, `-1` otherwise.  The
caller receives this code as the return value; no exception is raised
for a marker-level failure. -/
def set_cmd_code (r : String) : Int :=
  if hasSubstr r "null" then 0 else -1

/-- Embedding of `Camera.config_camera` (src/camera/cam.py lines
132-167) over the list of shell-command outcomes of its `set*` calls in
source order (iso, aperture, exposure compensation, shutter speed,
compression, white balance, counter, image name, transfer, folder —
`set_autofocus` runs no shell command).  An entry `error e` is a
`subprocess.check_output` call raising (non-zero process exit); an
entry `ok r` is a completed call with decoded output `r`, whose
`set_cmd_code` the method ignores.  The first raised entry aborts the
sequence into the `except` branch `(false, 500)`; a sequence with no
raise returns `(true, 200)` whatever the codes were. -/
def config_camera : List (Except String String) → BasicResponse
  | [] => ⟨true, 200, "Camera configuration successful"⟩
  | .error _ :: _ => ⟨false, 500, "Camera configuration failed"⟩
  | .ok _ :: rest => config_camera rest

/-- How many of the `set*` shell commands a `config_camera` call
executes: every call up to and including the first raising one. -/
def config_applied : List (Except String String) → Nat
  | [] => 0
  | .error _ :: _ => 1
  | .ok _ :: rest => 1 + config_applied rest

/-- Outcomes of the ten `set*` shell commands in which the first one
fails at the marker level (its output has no `null` success marker) and
the rest succeed. -/
def configMarkerFailCalls : List (Except String String) :=
  .ok "ERROR: value rejected" :: List.replicate 9 (.ok "null")

/-- Counterexample to claim C6: when the first field's `set` command
fails at the marker level (`__set_cmd` returns `-1`), `config_camera`
does not stop there and does not report failure — it runs all ten
commands and returns `(true, 200)`. -/
theorem config_camera_marker_failure_cex :
    set_cmd_code "ERROR: value rejected" = -1 ∧
    config_camera configMarkerFailCalls =
      ⟨true, 200, "Camera configuration successful"⟩ ∧
    config_applied configMarkerFailCalls = 10 := by
  exact ⟨by decide, rfl, rfl⟩

/-- Claim C6 as amended: only a `set` command that raises (non-zero
process exit in `subprocess.check_output`) aborts `config_camera`, at
that field, with `(false, 500)`; the fields applied before it are not
rolled back (exactly the commands before and including the failing one
ran).  A field that merely fails at the marker level — `__set_cmd`
returning `-1` — is ignored, and such a configuration reports
`(true, 200)`. -/
theorem config_camera_exception_aborts (pre post : List (Except String String))
    (e : String) (hpre : ∀ r ∈ pre, ∃ s, r = .ok s) :
    config_camera (pre ++ .error e :: post) =
      ⟨false, 500, "Camera configuration failed"⟩ ∧
    config_applied (pre ++ .error e :: post) = pre.length + 1 := by
  induction pre with
  | nil => exact ⟨rfl, rfl⟩
  | cons r rest ih =>
    obtain ⟨s, hs⟩ := hpre r (List.mem_cons_self r rest)
    have hrest : ∀ x ∈ rest, ∃ s, x = .ok s := fun x hx =>
      hpre x (List.mem_cons_of_mem r hx)
    obtain ⟨h1, h2⟩ := ih hrest
    subst hs
    refine ⟨by simpa [config_camera] using h1, ?_⟩
    rw [List.cons_append]
    have hstep : config_applied (Except.ok s :: (rest ++ Except.error e :: post)) =
        1 + config_applied (rest ++ Except.error e :: post) := rfl
    rw [hstep, h2, List.length_cons]
    omega

/-- The first two `set`-command outcomes of the witness for the amended
claim C6: both completed with the `null` success marker. -/
def configOkPre : List (Except String String) :=
  [.ok "null", .ok "null"]

/-- Witness for the amended claim C6: the third `set` command raises,
so the call aborts after three commands with `(false, 500)`. -/
theorem config_camera_exception_aborts_witness :
    (∀ r ∈ configOkPre, ∃ s, r = Except.ok s) ∧
    (config_camera
        (configOkPre ++ .error "exit status 1" ::
          List.replicate 7 (.ok "null")) =
      ⟨false, 500, "Camera configuration failed"⟩ ∧
     config_applied
        (configOkPre ++ .error "exit status 1" ::
          List.replicate 7 (.ok "null")) =
      configOkPre.length + 1) :=
  ⟨by intro r hr; fin_cases hr <;> exact ⟨"null", rfl⟩,
    config_camera_exception_aborts configOkPre
      (List.replicate 7 (.ok "null")) "exit status 1"
      (by intro r hr; fin_cases hr <;> exact ⟨"null", rfl⟩)⟩

/-! ## Record-and-persist upload — `src/api/blueprints/bp_video/routes.py`
lines 252-349 (`save_new_file`) -/

/-- Environment of one `save_new_file` request, each field one step of
the handler in source order; `error e` stands for that step raising an
exception whose text `str(e)` is `e`.  `crdParse` is the request-body
read of the first `try` block; `videoPath` the
`file_config.get_newest_file()` join (raising on an empty uploads
folder), `readResult` the `open`/`read` of the local file,
`encryptResult` the `encrypt_object` call.  `insertResponse` is the
`BasicResponse` the `insert_video` persistence call returns: that
method catches every exception internally
(src/api/db/basic_mongo.py lines 167-215) and never raises.
`logSaveBranch` is the `LogDocument(...).save()` MongoDB write the
taken 200 or 501 branch performs before returning (routes.py lines
315-331), and `logSaveExc` the `LogDocument(...).save()` write inside
the generic `except` handler (routes.py lines 342-346); either write
raises when the database is unreachable. -/
structure SaveFileEnv where
  crdParse : Except String String
  videoPath : Except String String
  readResult : Except String (List Nat)
  encryptResult : Except String (List Nat)
  insertResponse : BasicResponse
  logSaveBranch : Except String Unit
  logSaveExc : Except String Unit

/-- The generic `except` handler of `save_new_file` (routes.py lines
337-349) reached with exception text `e`: it performs its own
`LogDocument(...).save()` write first, so when that write also raises,
the new exception escapes the handler (no `BasicResponse` is returned
at all); otherwise the handler returns `(false, 500, str(e))`. -/
def save_new_file_exc (logSaveExc : Except String Unit) (e : String) :
    Except String BasicResponse :=
  match logSaveExc with
  | .ok _ => .ok ⟨false, 500, e⟩
  | .error e2 => .error e2

/-- Embedding of the `save_new_file` handler (routes.py lines 252-349).
The result is `ok` with the returned `BasicResponse`, or `error` when
an exception escapes the handler.  A raised first-try step returns
`(false, 500, str(e))` directly; a raised second-try step lands in the
generic `except` handler (`save_new_file_exc`).  `insert_video` never
raises; its unsuccessful response selects the 501 branch and a
successful one the 200 branch, but each branch performs its
`LogDocument.save()` write before returning, so a raise there sends
even these branches into the generic handler. -/
def save_new_file (env : SaveFileEnv) : Except String BasicResponse :=
  match env.crdParse with
  | .error e => .ok ⟨false, 500, e⟩
  | .ok _ =>
    match env.videoPath with
    | .error e => save_new_file_exc env.logSaveExc e
    | .ok _ =>
      match env.readResult with
      | .error e => save_new_file_exc env.logSaveExc e
      | .ok _ =>
        match env.encryptResult with
        | .error e => save_new_file_exc env.logSaveExc e
        | .ok _ =>
          if env.insertResponse.success then
            match env.logSaveBranch with
            | .ok _ => .ok ⟨true, 200, "Video recorded & Saved"⟩
            | .error e => save_new_file_exc env.logSaveExc e
          else
            match env.logSaveBranch with
            | .ok _ => .ok ⟨true, 501, "Video recorded but not uploaded."⟩
            | .error e => save_new_file_exc env.logSaveExc e

/-- Environment of the counterexample to claim C5, the database-down
scenario: the recording was produced and read, `insert_video` reports
failure without raising (it catches its own errors), and the
failure-log write of the 501 branch raises on the same dead database
while the log write of the `except` handler happens to complete. -/
def dbDownEnv : SaveFileEnv :=
  { crdParse := .ok "CRD-001"
    videoPath := .ok "uploads/CRD-001.mp4"
    readResult := .ok [1, 2, 3]
    encryptResult := .ok [9, 9, 9]
    insertResponse := ⟨false, 500, "localhost:27017: Connection refused"⟩
    logSaveBranch := .error "ServerSelectionTimeoutError: localhost:27017"
    logSaveExc := .ok () }

/-- Counterexample to claim C5: with the local file already read and
the persistence step failed (an unsuccessful `insert_video` response),
the handler answers success `false` with status 500 — not the claimed
success `true`, status 501, `not uploaded` outcome — because the 501
branch's own failure-log write raised before the return. -/
theorem save_new_file_db_down_cex :
    save_new_file dbDownEnv =
      .ok ⟨false, 500, "ServerSelectionTimeoutError: localhost:27017"⟩ ∧
    (500 : Nat) ≠ 501 ∧
    hasSubstr "ServerSelectionTimeoutError: localhost:27017" "not uploaded" = false := by
  exact ⟨rfl, by decide, by decide⟩

/-- Claim C5 as amended: when every step up to persistence succeeded,
the persistence call — which never raises — returned an unsuccessful
response, and the 501 branch's failure-log write completed without
raising, the outcome is success `true`, status 501, with the message
`Video recorded but not uploaded.` containing `not uploaded`, distinct
from the 200 full-success status and from the 500 status.  When that
log write raises instead — as it does when the same database is down —
the generic handler answers success `false` with status 500, or lets
the exception escape if its own log write raises too. -/
theorem save_new_file_persistence_501 (env : SaveFileEnv)
    (c p : String) (b enc : List Nat)
    (hc : env.crdParse = .ok c) (hp : env.videoPath = .ok p)
    (hb : env.readResult = .ok b) (he : env.encryptResult = .ok enc)
    (hfail : env.insertResponse.success = false)
    (hlog : env.logSaveBranch = .ok ()) :
    save_new_file env = .ok ⟨true, 501, "Video recorded but not uploaded."⟩ ∧
    hasSubstr "Video recorded but not uploaded." "not uploaded" = true ∧
    (501 : Nat) ≠ 500 ∧ (501 : Nat) ≠ 200 := by
  refine ⟨?_, by decide, by decide, by decide⟩
  rw [save_new_file, hc, hp, hb, he, hlog]
  simp [hfail]

/-- Environment of the witness for the amended claim C5 and of the
counterexample to claim C7: the persistence collaborator reports a
failed insert and both log writes complete. -/
def persistReportsFailureEnv : SaveFileEnv :=
  { crdParse := .ok "CRD-002"
    videoPath := .ok "uploads/CRD-002.mp4"
    readResult := .ok [4, 5, 6]
    encryptResult := .ok [7, 7, 7]
    insertResponse := ⟨false, 500, "insert failed"⟩
    logSaveBranch := .ok ()
    logSaveExc := .ok () }

/-- Witness for the amended claim C5 at the concrete environment in
which the persistence collaborator reports failure and the failure-log
write completes. -/
theorem save_new_file_persistence_501_witness :
    persistReportsFailureEnv.insertResponse.success = false ∧
    persistReportsFailureEnv.logSaveBranch = .ok () ∧
    (save_new_file persistReportsFailureEnv =
        .ok ⟨true, 501, "Video recorded but not uploaded."⟩ ∧
     hasSubstr "Video recorded but not uploaded." "not uploaded" = true ∧
     (501 : Nat) ≠ 500 ∧ (501 : Nat) ≠ 200) :=
  ⟨rfl, rfl,
    save_new_file_persistence_501 persistReportsFailureEnv
      "CRD-002" "uploads/CRD-002.mp4" [4, 5, 6] [7, 7, 7]
      rfl rfl rfl rfl rfl rfl⟩

/-! ## Single-frame video capture — `src/api/hardware/cam.py`
lines 259-287 (`Camera.capture_video`) -/

/-- Embedding of `Camera.capture_video`.  `body` is the outcome of the
`try` block up to its `if`: `ok b` means the five controller commands
and the sleep ran and `check_for_new_files(location)` returned `b`;
`error e` means one of them raised with text `e`.  With `b = true` the
method returns the success `DataResponse`; with `b = false` it falls
off the `if` and returns no response (Python `None`).  In the `except`
branch the code builds
`BasicResponse(sucess=True, status_code=200, message=f"Video recording fail: ...")`,
but the misspelled keyword `sucess` leaves the required `success` field
unset, so the constructor raises a pydantic `ValidationError` that
escapes instead of the intended response. -/
def capture_video (body : Except String Bool) :
    Except String (Option BasicResponse) :=
  match body with
  | .ok true => .ok (some ⟨true, 200, "Video capture successfully"⟩)
  | .ok false => .ok none
  | .error _ => .error "ValidationError: BasicResponse success Field required"

/-! ## Outcome-message invariant (claim C7) -/

/-- A message that implies failure: it carries one of the failure
markers the repository's own outcome messages use (`fail`,
`not uploaded`, `not started`, `not connected`). -/
def msg_implies_failure (m : String) : Bool :=
  hasSubstr m "fail" || hasSubstr m "not uploaded" ||
    hasSubstr m "not started" || hasSubstr m "not connected"

/-- A message that implies success: it carries one of the success
markers the repository's own outcome messages use (`successful`,
`Saved`, `recording started`, `is running`). -/
def msg_implies_success (m : String) : Bool :=
  hasSubstr m "successful" || hasSubstr m "Saved" ||
    hasSubstr m "recording started" || hasSubstr m "is running"

/-- Counterexample to claim C7: the partial-success outcome of
`save_new_file` carries success `true` together with the
failure-implying message `Video recorded but not uploaded.`. -/
theorem outcome_message_invariant_cex :
    save_new_file persistReportsFailureEnv =
      .ok ⟨true, 501, "Video recorded but not uploaded."⟩ ∧
    msg_implies_failure "Video recorded but not uploaded." = true := by
  exact ⟨rfl, by decide⟩

theorem config_camera_shape (calls : List (Except String String)) :
    config_camera calls = ⟨true, 200, "Camera configuration successful"⟩ ∨
    config_camera calls = ⟨false, 500, "Camera configuration failed"⟩ := by
  induction calls with
  | nil => exact Or.inl rfl
  | cons r rest ih =>
    match r with
    | .error e => exact Or.inr rfl
    | .ok s => exact ih

theorem digicam_start_video_shape (venv : StartVideoEnv) :
    (digicam_start_video venv).1 = ⟨false, 400, "Camera not connected"⟩ ∨
    (digicam_start_video venv).1 = ⟨true, 200, "Video recording started"⟩ ∨
    (digicam_start_video venv).1 = ⟨false, 400, "Video recording not started"⟩ ∨
    ((digicam_start_video venv).1.success = false ∧
      venv.startResult = .error (digicam_start_video venv).1.message) := by
  obtain ⟨lc, eo, pr, so, sr⟩ := venv
  by_cases hcam : is_camera lc = false
  · rw [digicam_start_video, if_pos hcam]
    exact Or.inl rfl
  · match sr with
    | .error e =>
      rw [digicam_start_video, if_neg hcam]
      exact Or.inr (Or.inr (Or.inr ⟨rfl, rfl⟩))
    | .ok ⟨true, rc, rm⟩ =>
      rw [digicam_start_video, if_neg hcam]
      exact Or.inr (Or.inl rfl)
    | .ok ⟨false, rc, rm⟩ =>
      rw [digicam_start_video, if_neg hcam]
      exact Or.inr (Or.inr (Or.inl rfl))

theorem save_new_file_ok_shape (env : SaveFileEnv) (r : BasicResponse)
    (h : save_new_file env = .ok r) :
    r = ⟨true, 200, "Video recorded & Saved"⟩ ∨
    r = ⟨true, 501, "Video recorded but not uploaded."⟩ ∨
    (r.success = false ∧ r.status_code = 500 ∧
      (env.crdParse = .error r.message ∨ env.videoPath = .error r.message ∨
        env.readResult = .error r.message ∨
        env.encryptResult = .error r.message ∨
        env.logSaveBranch = .error r.message)) := by
  obtain ⟨cr, vp, rr, er, ir, lb, le⟩ := env
  match cr, vp, rr, er, ir, lb, le, h with
  | .error e, _, _, _, _, _, _, h =>
    cases h
    exact Or.inr (Or.inr ⟨rfl, rfl, Or.inl rfl⟩)
  | .ok _, .error e, _, _, _, _, .ok _, h =>
    cases h
    exact Or.inr (Or.inr ⟨rfl, rfl, Or.inr (Or.inl rfl)⟩)
  | .ok _, .error e, _, _, _, _, .error e2, h =>
    exact Except.noConfusion h
  | .ok _, .ok _, .error e, _, _, _, .ok _, h =>
    cases h
    exact Or.inr (Or.inr ⟨rfl, rfl, Or.inr (Or.inr (Or.inl rfl))⟩)
  | .ok _, .ok _, .error e, _, _, _, .error e2, h =>
    exact Except.noConfusion h
  | .ok _, .ok _, .ok _, .error e, _, _, .ok _, h =>
    cases h
    exact Or.inr (Or.inr ⟨rfl, rfl, Or.inr (Or.inr (Or.inr (Or.inl rfl)))⟩)
  | .ok _, .ok _, .ok _, .error e, _, _, .error e2, h =>
    exact Except.noConfusion h
  | .ok _, .ok _, .ok _, .ok _, ⟨true, rc, rm⟩, .ok _, _, h =>
    cases h
    exact Or.inl rfl
  | .ok _, .ok _, .ok _, .ok _, ⟨true, rc, rm⟩, .error e, .ok _, h =>
    cases h
    exact Or.inr (Or.inr ⟨rfl, rfl, Or.inr (Or.inr (Or.inr (Or.inr rfl)))⟩)
  | .ok _, .ok _, .ok _, .ok _, ⟨true, rc, rm⟩, .error e, .error e2, h =>
    exact Except.noConfusion h
  | .ok _, .ok _, .ok _, .ok _, ⟨false, rc, rm⟩, .ok _, _, h =>
    cases h
    exact Or.inr (Or.inl rfl)
  | .ok _, .ok _, .ok _, .ok _, ⟨false, rc, rm⟩, .error e, .ok _, h =>
    cases h
    exact Or.inr (Or.inr ⟨rfl, rfl, Or.inr (Or.inr (Or.inr (Or.inr rfl)))⟩)
  | .ok _, .ok _, .ok _, .ok _, ⟨false, rc, rm⟩, .error e, .error e2, h =>
    exact Except.noConfusion h

/-- Claim C7 as amended, over every modelled operation returning a
`BasicResponse` (`open_program`, `config_camera`,
`digicam_start_video`, `capture_video`, `save_new_file`): an outcome
with success `true` never carries a failure-implying message, except
the single 501 partial-success outcome of `save_new_file`, whose
message is exactly `Video recorded but not uploaded.`; and an outcome
with success `false` never carries a success-implying message, except
that on a raised path the message is the raised exception's verbatim
text (`digicam_start_video`'s `start_recording` exception, or the
raising step of `save_new_file`), which the code passes through without
authoring or inspecting it. -/
theorem outcome_message_amended (spawnOk : Bool)
    (calls : List (Except String String)) (venv : StartVideoEnv)
    (body : Except String Bool) (senv : SaveFileEnv) :
    ((open_program spawnOk).success = true →
      msg_implies_failure (open_program spawnOk).message = false)
    ∧ ((open_program spawnOk).success = false →
        msg_implies_success (open_program spawnOk).message = false)
    ∧ ((config_camera calls).success = true →
        msg_implies_failure (config_camera calls).message = false)
    ∧ ((config_camera calls).success = false →
        msg_implies_success (config_camera calls).message = false)
    ∧ ((digicam_start_video venv).1.success = true →
        msg_implies_failure (digicam_start_video venv).1.message = false)
    ∧ ((digicam_start_video venv).1.success = false →
        msg_implies_success (digicam_start_video venv).1.message = false ∨
        venv.startResult = .error (digicam_start_video venv).1.message)
    ∧ (∀ r, capture_video body = .ok (some r) →
        r.success = true ∧ msg_implies_failure r.message = false)
    ∧ (∀ r, save_new_file senv = .ok r →
        (r.success = true →
          (r.status_code = 200 ∧ r.message = "Video recorded & Saved" ∧
            msg_implies_failure r.message = false) ∨
          (r.status_code = 501 ∧
            r.message = "Video recorded but not uploaded."))
        ∧ (r.success = false →
            msg_implies_success r.message = false ∨
            senv.crdParse = .error r.message ∨
            senv.videoPath = .error r.message ∨
            senv.readResult = .error r.message ∨
            senv.encryptResult = .error r.message ∨
            senv.logSaveBranch = .error r.message)) := by
  refine ⟨?_, ?_, ?_, ?_, ?_, ?_, ?_, ?_⟩
  · intro hs
    match spawnOk, hs with
    | true, hs => rfl
  · intro hs
    match spawnOk, hs with
    | false, hs => rfl
  · intro hs
    rcases config_camera_shape calls with h | h <;> rw [h] at hs ⊢
    · rfl
    · exact Bool.noConfusion hs
  · intro hs
    rcases config_camera_shape calls with h | h <;> rw [h] at hs ⊢
    · exact Bool.noConfusion hs
    · rfl
  · intro hs
    rcases digicam_start_video_shape venv with h | h | h | ⟨h, _⟩ <;>
      first
        | (rw [h] at hs ⊢; first | rfl | exact Bool.noConfusion hs)
        | (rw [h] at hs; exact Bool.noConfusion hs)
  · intro hs
    rcases digicam_start_video_shape venv with h | h | h | ⟨_, h⟩
    · rw [h]; exact Or.inl rfl
    · rw [h] at hs; exact Bool.noConfusion hs
    · rw [h]; exact Or.inl rfl
    · exact Or.inr h
  · intro r hr
    match body, hr with
    | .ok true, hr =>
      cases hr
      exact ⟨rfl, rfl⟩
  · intro r hr
    rcases save_new_file_ok_shape senv r hr with h | h | ⟨h1, _, h3⟩
    · subst h
      exact ⟨fun _ => Or.inl ⟨rfl, rfl, rfl⟩, fun hf => Bool.noConfusion hf⟩
    · subst h
      exact ⟨fun _ => Or.inr ⟨rfl, rfl⟩, fun hf => Bool.noConfusion hf⟩
    · refine ⟨fun hs => ?_, fun _ => Or.inr h3⟩
      rw [h1] at hs
      exact Bool.noConfusion hs

/-! ## At-rest encryption — `src/security/basic_encription.py`
(`ObjectEncryptor`) -/

/-- The symmetric `Fernet` cipher of the external crypto library,
specified at its interface boundary: a pair of byte-sequence maps. -/
structure FernetCipher where
  encrypt : List Nat → List Nat
  decrypt : List Nat → List Nat

/-- The `pickle` serialization of the Python standard library,
specified at its interface boundary: `dumps` to bytes and `loads` back. -/
structure Pickler (α : Type) where
  dumps : α → List Nat
  loads : List Nat → α

/-- Embedding of `ObjectEncryptor` (basic_encription.py lines 9-36):
the `Fernet(key)` cipher suite the constructor builds, together with
the `pickle` module the methods call. -/
structure ObjectEncryptor (α : Type) where
  cipher_suite : FernetCipher
  pickle : Pickler α

/-- Embedding of `ObjectEncryptor.encrypt_object`:
`cipher_suite.encrypt(pickle.dumps(data))`. -/
def ObjectEncryptor.encrypt_object (oe : ObjectEncryptor α) (data : α) :
    List Nat :=
  oe.cipher_suite.encrypt (oe.pickle.dumps data)

/-- Embedding of `ObjectEncryptor.decrypt_object`:
`pickle.loads(cipher_suite.decrypt(cipher_text))`. -/
def ObjectEncryptor.decrypt_object (oe : ObjectEncryptor α)
    (cipher_text : List Nat) : α :=
  oe.pickle.loads (oe.cipher_suite.decrypt cipher_text)

/-- Claim C8: for an `ObjectEncryptor` whose cipher suite is built from
one key — so decryption inverts encryption, the contract of the
external `Fernet` collaborator — and whose serializer round-trips,
`decrypt_object (encrypt_object b) = b` for every bytes payload `b`,
the empty payload included. -/
theorem encrypt_decrypt_roundtrip (oe : ObjectEncryptor (List Nat))
    (hcipher : ∀ x, oe.cipher_suite.decrypt (oe.cipher_suite.encrypt x) = x)
    (hpickle : ∀ x, oe.pickle.loads (oe.pickle.dumps x) = x)
    (b : List Nat) :
    oe.decrypt_object (oe.encrypt_object b) = b := by
  rw [ObjectEncryptor.encrypt_object, ObjectEncryptor.decrypt_object,
    hcipher, hpickle]

/-- An `ObjectEncryptor` over the identity cipher and serializer, a
concrete instance satisfying both collaborator contracts. -/
def idObjectEncryptor : ObjectEncryptor (List Nat) :=
  ⟨⟨id, id⟩, ⟨id, id⟩⟩

/-- Witness for claim C8 at a concrete encryptor and the empty payload. -/
theorem encrypt_decrypt_roundtrip_witness :
    idObjectEncryptor.decrypt_object (idObjectEncryptor.encrypt_object []) =
      ([] : List Nat) :=
  encrypt_decrypt_roundtrip idObjectEncryptor (fun _ => rfl) (fun _ => rfl) []

end Visia
